import Mathlib

/-!
Shallow embedding of the state sync reactor (`statesync/reactor.go`) of the
celestia-core repository, together with theorems settling the spec claims
about it.

The reactor is embedded as a pure state-passing model: the reactor struct
becomes a Lean structure, the application connection and the syncer's
`SyncAny` become oracles supplied as arguments, and each handler returns the
list of observable effects (peer sends and stops, application calls, syncer
feed calls, broadcasts) it performs, in program order.  Branches of the Go
code that only log produce no effect.
-/

/-- Peer identifier (`p2p.ID`), kept abstract as a natural number. -/
abbrev PeerID := Nat

/-- Raw byte strings (`[]byte`).  `Option Bytes` distinguishes a Go nil slice
(`none`) from a non-nil one, which `Reactor.Receive` inspects via
`resp.Chunk == nil`. -/
abbrev Bytes := List Nat

/-- Snapshot record: the five fields shared by `abci.Snapshot`, the reactor's
local `snapshot` struct and the `SnapshotsResponse` wire message
(`Height uint64`, `Format uint32`, `Chunks uint32`, `Hash`/`Metadata` bytes). -/
structure Snapshot where
  Height : Nat
  Format : Nat
  Chunks : Nat
  Hash : Bytes
  Metadata : Bytes
deriving DecidableEq, Repr

/-- The `chunk` record the reactor hands to `syncer.AddChunk`
(`Height`, `Format`, `Index`, raw bytes, and the sending peer). -/
structure Chunk where
  Height : Nat
  Format : Nat
  Index : Nat
  Chunk : Option Bytes
  Sender : PeerID
deriving DecidableEq, Repr

/-- The statesync wire messages (`proto/tendermint/statesync`):
`SnapshotsRequest`, `SnapshotsResponse`, `ChunkRequest`, `ChunkResponse`. -/
inductive Message where
  | snapshotsRequest : Message
  | snapshotsResponse (Height Format Chunks : Nat) (Hash Metadata : Bytes) : Message
  | chunkRequest (Height Format Index : Nat) : Message
  | chunkResponse (Height Format Index : Nat) (Chunk : Option Bytes)
      (Missing : Bool) : Message
deriving DecidableEq, Repr

/-- A `p2p.Envelope` as consumed by `Reactor.Receive`: channel identifier,
source peer, and decoded message. -/
structure Envelope where
  ChannelID : Nat
  Src : PeerID
  Message : Message
deriving DecidableEq, Repr

/-- `SnapshotChannel` exchanges snapshot metadata (`byte(0x60)`). -/
def SnapshotChannel : Nat := 0x60

/-- `ChunkChannel` exchanges chunk contents (`byte(0x61)`). -/
def ChunkChannel : Nat := 0x61

/-- `recentSnapshots` is the number of recent snapshots to send and receive
per peer (the constant `10` in `reactor.go`). -/
def recentSnapshotsBound : Nat := 10

/-- Modelled from the spec: `snapshotMsgSize`, the receive-message capacity of
the snapshot channel, is a constant declared in `statesync/messages.go`, which
is not among the sources; the spec and the claims use it only by name, so its
numeric value is immaterial to every theorem below. -/
def snapshotMsgSize : Nat := 4000000

/-- Modelled from the spec: `chunkMsgSize`, the receive-message capacity of
the chunk channel, is likewise a named constant of `statesync/messages.go`
whose numeric value is immaterial here. -/
def chunkMsgSize : Nat := 16000000

/-- A `p2p.ChannelDescriptor`, restricted to the fields `Reactor.GetChannels`
sets (the `MessageType` field is the same `ssproto.Message` set for both
channels and is omitted). -/
structure ChannelDescriptor where
  ID : Nat
  Priority : Nat
  SendQueueCapacity : Nat
  RecvMessageCapacity : Nat
deriving DecidableEq, Repr

/-- Modelled from the spec: the `syncer` type lives in `statesync/syncer.go`,
which is not among the sources.  The reactor only constructs it via
`newSyncer(r.cfg, r.Logger, r.conn, r.connQuery, stateProvider, r.tempDir)`,
feeds it snapshots and chunks, and runs `SyncAny` on it; we record the
per-session construction arguments so distinct sessions are distinguishable. -/
structure Syncer where
  cfg : Nat
  stateProvider : Nat
  tempDir : Nat
deriving DecidableEq, Repr

/-- The application snapshot connection (`proxy.AppConnSnapshot`) as consumed
by the reactor, given by the responses it would return: `listSnapshots` is the
snapshot list of `ResponseListSnapshots`, and `loadSnapshotChunk h f c` is the
`Chunk` field of `ResponseLoadSnapshotChunk` for `RequestLoadSnapshotChunk
{Height:h, Format:f, Chunk:c}`.  `.error` models a non-nil Go error. -/
structure AppConn where
  listSnapshots : Except Nat (List Snapshot)
  loadSnapshotChunk : Nat → Nat → Nat → Except Nat (Option Bytes)

/-- The reactor state: configuration handles (kept abstract), the running
flag of the base service, the optional active syncer, and the value of the
`Syncing` metric gauge. -/
structure Reactor where
  cfg : Nat
  conn : AppConn
  connQuery : Nat
  tempDir : Nat
  running : Bool
  syncer : Option Syncer
  metricsSyncing : Nat

/-- Observable effects of the reactor handlers, in program order:
peer stops, sends to a peer on a channel, application calls, calls feeding the
active syncer, broadcasts, and the (blocking) `SyncAny` invocation.  The
`callSyncAny` effect records the hook closure handed to `SyncAny` by the
envelope that hook broadcasts. -/
inductive Effect where
  | stopPeerForError (peer : PeerID)
  | send (dst : PeerID) (ChannelID : Nat) (msg : Message)
  | callListSnapshots
  | callLoadSnapshotChunk (Height Format Chunk : Nat)
  | syncerAddSnapshot (peer : PeerID) (s : Snapshot)
  | syncerAddChunk (c : Chunk)
  | broadcast (ChannelID : Nat) (msg : Message)
  | callSyncAny (s : Syncer) (discoveryTime : Nat) (hookChannelID : Nat)
      (hookMsg : Message)
deriving DecidableEq, Repr

/-- The comparator of the `sort.Slice` call in `Reactor.recentSnapshots`:
`snapshotBefore a b = true` mirrors `less(i, j)` — `a` sorts before `b` when
`a.Height > b.Height`, or the heights are equal and `a.Format > b.Format`. -/
def snapshotBefore (a b : Snapshot) : Bool :=
  if b.Height < a.Height then true
  else if a.Height = b.Height ∧ b.Format < a.Format then true
  else false

/-- `snapshotLE a b` holds when `a` may legally precede `b` in a list sorted
by `snapshotBefore`, i.e. `b` does not sort strictly before `a`. -/
def snapshotLE (a b : Snapshot) : Bool := !snapshotBefore b a

/-- Insert a snapshot into a `snapshotLE`-sorted list. -/
def insertSnapshot (a : Snapshot) : List Snapshot → List Snapshot
  | [] => [a]
  | b :: l => if snapshotLE a b then a :: b :: l else b :: insertSnapshot a l

/-- Deterministic refinement of the `sort.Slice` call in
`Reactor.recentSnapshots`: `sort.Slice` guarantees exactly a permutation of
its input sorted with respect to the comparator, with the order of
comparator-ties unspecified; this insertion sort is one such permutation. -/
def sortSnapshots : List Snapshot → List Snapshot
  | [] => []
  | a :: l => insertSnapshot a (sortSnapshots l)

/-- `Reactor.recentSnapshots`: fetch `ListSnapshots` from the app, sort by
descending `Height` then descending `Format`, and keep at most
`recentSnapshotsBound` entries (the Go loop breaks on the constant
`recentSnapshots`, not on the parameter `n`, which only sizes the slice),
copying each retained `abci` snapshot field for field into a local
`snapshot`. -/
def Reactor.recentSnapshots (r : Reactor) (n : Nat) : Except Nat (List Snapshot) :=
  match r.conn.listSnapshots with
  | .error err => .error err
  | .ok resp =>
      .ok (((sortSnapshots resp).take recentSnapshotsBound).map
        (fun s => ⟨s.Height, s.Format, s.Chunks, s.Hash, s.Metadata⟩))

/-- `Reactor.Receive`: drop everything while not running; validate the message
and stop the peer on a validation error; otherwise dispatch on the channel
identifier and the message type exactly as the Go `switch` does.  The result
is the ordered list of observable effects; `Receive` never writes a reactor
field, so the reactor state is unchanged by construction.  `validateMsg` (from
`statesync/messages.go`, not among the sources) is passed in as an oracle:
`some err` models a non-nil validation error. -/
def Reactor.Receive (r : Reactor) (validateMsg : Message → Option Nat)
    (e : Envelope) : List Effect :=
  if !r.running then []
  else
    match validateMsg e.Message with
    | some _ => [.stopPeerForError e.Src]
    | none =>
      if e.ChannelID = SnapshotChannel then
        match e.Message with
        | .snapshotsRequest =>
            -- the ListSnapshots application call happens inside recentSnapshots
            .callListSnapshots ::
              (match r.recentSnapshots recentSnapshotsBound with
               | .error _ => []
               | .ok snapshots =>
                   snapshots.map (fun s =>
                     .send e.Src e.ChannelID
                       (.snapshotsResponse s.Height s.Format s.Chunks s.Hash
                         s.Metadata)))
        | .snapshotsResponse H F C Ha M =>
            match r.syncer with
            | none => []
            | some _ => [.syncerAddSnapshot e.Src ⟨H, F, C, Ha, M⟩]
        | _ => []
      else if e.ChannelID = ChunkChannel then
        match e.Message with
        | .chunkRequest H F I =>
            .callLoadSnapshotChunk H F I ::
              (match r.conn.loadSnapshotChunk H F I with
               | .error _ => []
               | .ok c =>
                   [.send e.Src ChunkChannel
                     (.chunkResponse H F I c c.isNone)])
        | .chunkResponse H F I c _ =>
            match r.syncer with
            | none => []
            | some _ => [.syncerAddChunk ⟨H, F, I, c, e.Src⟩]
        | _ => []
      else []

/-- `Reactor.GetChannels`: the two channel descriptors, verbatim. -/
def Reactor.GetChannels (_ : Reactor) : List ChannelDescriptor :=
  [⟨SnapshotChannel, 5, 10, snapshotMsgSize⟩,
   ⟨ChunkChannel, 3, 10, chunkMsgSize⟩]

/-- Modelled from the spec: a cut-down `sm.State` (the `state` package is not
among the sources).  `Reactor.Sync` only ever produces the zero value
`sm.State{}` or whatever `SyncAny` returned, so two representative fields
suffice to distinguish the zero value. -/
structure SMState where
  lastBlockHeight : Nat
  appHash : Bytes
deriving DecidableEq, Repr

/-- The zero value `sm.State{}`. -/
def SMState.empty : SMState := ⟨0, []⟩

/-- A `types.Commit`, cut down to its identifying header fields; the reactor
passes commits through opaquely. -/
structure Commit where
  Height : Nat
  Round : Nat
deriving DecidableEq, Repr

/-- Modelled from the spec: the terminal error categories of `syncer.SyncAny`
(`statesync/syncer.go` is not among the sources).  Per the spec's failure
semantics summary, `SyncAny` surfaces only: discovery exhaustion, application
`ABORT`, pool exhaustion, or state-provider failure; everything transient is
retried internally. -/
inductive SyncerErr where
  | discoveryExhaustion
  | appAbort
  | poolExhaustion
  | stateProviderFailure
deriving DecidableEq, Repr

/-- The errors `Reactor.Sync` can return: the guard error
`"a state sync is already in progress"`, or an error propagated from
`SyncAny`. -/
inductive SyncError where
  | alreadyInProgress
  | fromSyncer (e : SyncerErr)
deriving DecidableEq, Repr

/-- What a run of `syncer.SyncAny` returns: a state, an optional commit, and
an optional terminal error. -/
structure SyncAnyResult where
  state : SMState
  commit : Option Commit
  err : Option SyncerErr

/-- What `Reactor.Sync` returns to its caller. -/
structure SyncReturn where
  state : SMState
  commit : Option Commit
  err : Option SyncError

/-- `Reactor.Sync`: under the mutex, error out if a syncer is already set;
otherwise set the `Syncing` gauge to 1 and install a fresh syncer; call the
broadcast hook once, then run `SyncAny` with the same hook; finally clear the
syncer and reset the gauge to 0 before returning `SyncAny`'s result.
`syncAny` is an oracle for the missing `syncer.SyncAny` (it receives the
installed syncer and the discovery time); the hook closure is recorded in the
effect trace by the envelope it broadcasts. -/
def Reactor.Sync (r : Reactor) (syncAny : Syncer → Nat → SyncAnyResult)
    (stateProvider : Nat) (discoveryTime : Nat) :
    Reactor × SyncReturn × List Effect :=
  match r.syncer with
  | some _ => (r, ⟨SMState.empty, none, some .alreadyInProgress⟩, [])
  | none =>
      let s : Syncer := ⟨r.cfg, stateProvider, r.tempDir⟩
      let r1 := { r with metricsSyncing := 1, syncer := some s }
      let out := syncAny s discoveryTime
      let r2 := { r1 with syncer := none, metricsSyncing := 0 }
      (r2, ⟨out.state, out.commit, out.err.map .fromSyncer⟩,
        [.broadcast SnapshotChannel .snapshotsRequest,
         .callSyncAny s discoveryTime SnapshotChannel .snapshotsRequest])

/-! ### Properties of the snapshot ordering used by `recentSnapshots` -/

theorem snapshotBefore_iff (a b : Snapshot) :
    snapshotBefore a b = true ↔
      b.Height < a.Height ∨ (a.Height = b.Height ∧ b.Format < a.Format) := by
  unfold snapshotBefore
  split
  · simp_all
  · split <;> simp_all

theorem snapshotLE_iff (a b : Snapshot) :
    snapshotLE a b = true ↔
      b.Height < a.Height ∨ (a.Height = b.Height ∧ b.Format ≤ a.Format) := by
  simp only [snapshotLE, Bool.not_eq_true', ← Bool.not_eq_true, snapshotBefore_iff]
  omega

theorem snapshotLE_total (a b : Snapshot) :
    snapshotLE a b = true ∨ snapshotLE b a = true := by
  rw [snapshotLE_iff, snapshotLE_iff]
  omega

theorem snapshotLE_trans {a b c : Snapshot} (hab : snapshotLE a b = true)
    (hbc : snapshotLE b c = true) : snapshotLE a c = true := by
  rw [snapshotLE_iff] at *
  omega

theorem insertSnapshot_perm (a : Snapshot) (l : List Snapshot) :
    (insertSnapshot a l).Perm (a :: l) := by
  induction l with
  | nil => exact .refl _
  | cons b l ih =>
    unfold insertSnapshot
    split
    · exact .refl _
    · exact (ih.cons b).trans (List.Perm.swap a b l)

theorem insertSnapshot_sorted (a : Snapshot) {l : List Snapshot}
    (h : l.Pairwise (fun x y => snapshotLE x y = true)) :
    (insertSnapshot a l).Pairwise (fun x y => snapshotLE x y = true) := by
  induction l with
  | nil => simp [insertSnapshot]
  | cons b l ih =>
    rw [List.pairwise_cons] at h
    obtain ⟨hb, hl⟩ := h
    unfold insertSnapshot
    split
    · rename_i hab
      rw [List.pairwise_cons]
      refine ⟨?_, by rw [List.pairwise_cons]; exact ⟨hb, hl⟩⟩
      intro c hc
      rcases List.mem_cons.mp hc with rfl | hc2
      · exact hab
      · exact snapshotLE_trans hab (hb c hc2)
    · rename_i hab
      rw [List.pairwise_cons]
      refine ⟨?_, ih hl⟩
      intro c hc
      have hmem : c ∈ a :: l := (insertSnapshot_perm a l).mem_iff.mp hc
      rcases List.mem_cons.mp hmem with rfl | hc2
      · rcases snapshotLE_total b c with hbc | hcb
        · exact hbc
        · exact absurd hcb (by simpa using hab)
      · exact hb c hc2

theorem sortSnapshots_perm (l : List Snapshot) : (sortSnapshots l).Perm l := by
  induction l with
  | nil => exact .refl _
  | cons a l ih =>
    exact (insertSnapshot_perm a (sortSnapshots l)).trans (ih.cons a)

theorem sortSnapshots_sorted (l : List Snapshot) :
    (sortSnapshots l).Pairwise (fun x y => snapshotLE x y = true) := by
  induction l with
  | nil => simp [sortSnapshots]
  | cons a l ih => exact insertSnapshot_sorted a ih

/-! ### Concrete fixtures used by the witness theorems -/

/-- A concrete application connection: no snapshots, every chunk nil. -/
def app0 : AppConn := ⟨.ok [], fun _ _ _ => .ok none⟩

/-- A concrete application connection advertising three snapshots and holding
bytes for chunk (1, 2, 3). -/
def app1 : AppConn :=
  ⟨.ok [⟨90, 2, 4, [1], []⟩, ⟨100, 1, 3, [2], [7]⟩, ⟨100, 2, 3, [3], []⟩],
   fun h f c => if h = 1 ∧ f = 2 ∧ c = 3 then .ok (some [9, 9]) else .ok none⟩

/-- A concrete syncer value. -/
def syncer0 : Syncer := ⟨0, 0, 0⟩

/-- A concrete idle, running reactor. -/
def rIdle : Reactor := ⟨0, app1, 0, 0, true, none, 0⟩

/-- A concrete reactor with a sync session in progress. -/
def rBusy : Reactor := ⟨0, app1, 0, 0, true, some syncer0, 1⟩

/-- A concrete `SyncAny` oracle that succeeds. -/
def syncAnyOk : Syncer → Nat → SyncAnyResult :=
  fun _ _ => ⟨⟨100, [2]⟩, some ⟨100, 0⟩, none⟩

/-- A concrete `SyncAny` oracle that fails with an application `ABORT`. -/
def syncAnyAbort : Syncer → Nat → SyncAnyResult :=
  fun _ _ => ⟨SMState.empty, none, some .appAbort⟩

/-- A concrete validator that accepts every message. -/
def validateOk : Message → Option Nat := fun _ => none

/-- A concrete validator that rejects every message (error code 7). -/
def validateBad : Message → Option Nat := fun _ => some 7
/-! ### Claim theorems -/

/-- C1: calling `Sync` while a sync session is already in progress returns the
empty state `sm.State{}`, a nil commit and a non-nil error, leaves the reactor
— in particular the installed syncer — unchanged, and performs no effect at
all: no discovery broadcast, no `SyncAny`, and nothing queued or merged. -/
theorem sync_guard_rejects_second_session
    (r : Reactor) (s : Syncer) (syncAny : Syncer → Nat → SyncAnyResult)
    (stateProvider discoveryTime : Nat) (h : r.syncer = some s) :
    r.Sync syncAny stateProvider discoveryTime =
      (r, ⟨SMState.empty, none, some .alreadyInProgress⟩, []) := by
  unfold Reactor.Sync
  rw [h]

/-- C1 witness: the guard theorem applied to the concrete busy reactor. -/
theorem sync_guard_rejects_second_session_witness :
    rBusy.Sync syncAnyOk 0 0 =
      (rBusy, ⟨SMState.empty, none, some .alreadyInProgress⟩, []) :=
  sync_guard_rejects_second_session rBusy syncer0 syncAnyOk 0 0 rfl

/-- C2 counterexample: a run of `Sync` on a reactor with a session already in
progress returns the distinct error `"a state sync is already in progress"`,
which is none of the four terminal categories (discovery exhaustion,
application abort, pool exhaustion, state-provider failure); so, as stated
over every run of `Sync`, the claim fails. -/
theorem sync_error_taxonomy_counterexample :
    (rBusy.Sync syncAnyOk 0 0).2.1.err = some SyncError.alreadyInProgress ∧
    SyncError.alreadyInProgress ≠ .fromSyncer .discoveryExhaustion ∧
    SyncError.alreadyInProgress ≠ .fromSyncer .appAbort ∧
    SyncError.alreadyInProgress ≠ .fromSyncer .poolExhaustion ∧
    SyncError.alreadyInProgress ≠ .fromSyncer .stateProviderFailure := by
  refine ⟨rfl, ?_, ?_, ?_, ?_⟩ <;> intro h <;> cases h

/-- C2 (amended): for every run of `Sync` that passes the single-session
guard, any returned error is one of the four terminal categories — discovery
exhaustion, application `ABORT`, pool exhaustion, or state-provider failure —
transient failures being retried inside `SyncAny` and never surfaced. -/
theorem sync_error_taxonomy
    (r : Reactor) (syncAny : Syncer → Nat → SyncAnyResult)
    (stateProvider discoveryTime : Nat) (x : SyncError)
    (hidle : r.syncer = none)
    (hx : (r.Sync syncAny stateProvider discoveryTime).2.1.err = some x) :
    x = .fromSyncer .discoveryExhaustion ∨ x = .fromSyncer .appAbort ∨
    x = .fromSyncer .poolExhaustion ∨ x = .fromSyncer .stateProviderFailure := by
  unfold Reactor.Sync at hx
  rw [hidle] at hx
  simp only [Option.map_eq_some'] at hx
  obtain ⟨e, _, rfl⟩ := hx
  cases e <;> simp

/-- C2 witness: the amended taxonomy applied to a concrete run that fails
with an application abort. -/
theorem sync_error_taxonomy_witness :
    SyncError.fromSyncer .appAbort = .fromSyncer .discoveryExhaustion ∨
    SyncError.fromSyncer .appAbort = .fromSyncer .appAbort ∨
    SyncError.fromSyncer .appAbort = .fromSyncer .poolExhaustion ∨
    SyncError.fromSyncer .appAbort = .fromSyncer .stateProviderFailure :=
  sync_error_taxonomy rIdle syncAnyAbort 0 0 (.fromSyncer .appAbort) rfl rfl

/-- C6: a run of `Sync` that passes the guard first broadcasts a
`SnapshotsRequest` on the snapshot channel to all peers and only then invokes
the blocking `SyncAny`, handing it the very same broadcast hook (same channel,
same message) for periodic re-broadcast. -/
theorem sync_broadcasts_discovery
    (r : Reactor) (syncAny : Syncer → Nat → SyncAnyResult)
    (stateProvider discoveryTime : Nat) (hidle : r.syncer = none) :
    (r.Sync syncAny stateProvider discoveryTime).2.2 =
      [.broadcast SnapshotChannel .snapshotsRequest,
       .callSyncAny ⟨r.cfg, stateProvider, r.tempDir⟩ discoveryTime
         SnapshotChannel .snapshotsRequest] := by
  unfold Reactor.Sync
  rw [hidle]

/-- C6 witness: the discovery-broadcast theorem applied to the concrete idle
reactor. -/
theorem sync_broadcasts_discovery_witness :
    (rIdle.Sync syncAnyOk 2 5).2.2 =
      [.broadcast SnapshotChannel .snapshotsRequest,
       .callSyncAny ⟨0, 2, 0⟩ 5 SnapshotChannel .snapshotsRequest] :=
  sync_broadcasts_discovery rIdle syncAnyOk 2 5 rfl

/-- C9: whenever a run of `Sync` that passed the guard returns — `SyncAny`
succeeding or failing — the reactor is idle again: the syncer field is nil,
the `Syncing` gauge is 0, and a subsequent `Sync` call is never rejected with
the session-in-progress error. -/
theorem sync_restores_idle
    (r : Reactor) (syncAny : Syncer → Nat → SyncAnyResult)
    (stateProvider discoveryTime : Nat) (hidle : r.syncer = none) :
    (r.Sync syncAny stateProvider discoveryTime).1.syncer = none ∧
    (r.Sync syncAny stateProvider discoveryTime).1.metricsSyncing = 0 ∧
    ∀ syncAny2 sp2 dt2,
      ((r.Sync syncAny stateProvider discoveryTime).1.Sync syncAny2 sp2 dt2).2.1.err ≠
        some SyncError.alreadyInProgress := by
  unfold Reactor.Sync
  rw [hidle]
  refine ⟨rfl, rfl, ?_⟩
  intro syncAny2 sp2 dt2
  cases herr : (syncAny2 ⟨r.cfg, sp2, r.tempDir⟩ dt2).err <;> simp [herr]

/-- C9 witness: the idle-restoration theorem applied to the concrete idle
reactor, for a succeeding and then an aborting session. -/
theorem sync_restores_idle_witness :
    (rIdle.Sync syncAnyOk 0 0).1.syncer = none ∧
    (rIdle.Sync syncAnyOk 0 0).1.metricsSyncing = 0 ∧
    ((rIdle.Sync syncAnyOk 0 0).1.Sync syncAnyAbort 0 0).2.1.err ≠
      some SyncError.alreadyInProgress :=
  ⟨(sync_restores_idle rIdle syncAnyOk 0 0 rfl).1,
   (sync_restores_idle rIdle syncAnyOk 0 0 rfl).2.1,
   (sync_restores_idle rIdle syncAnyOk 0 0 rfl).2.2 syncAnyAbort 0 0⟩

/-- C3: a `ChunkRequest (Height, Format, Index)` received while no sync
session is active triggers exactly one `LoadSnapshotChunk` application call
with exactly those three values and — when that call succeeds — one
`ChunkResponse` back to the requesting peer on the chunk channel echoing the
same triple, carrying the returned bytes, with `Missing` true exactly when the
returned chunk is nil. -/
theorem chunk_request_served
    (r : Reactor) (validateMsg : Message → Option Nat) (src : PeerID)
    (H F I : Nat) (c : Option Bytes)
    (hrun : r.running = true)
    (hidle : r.syncer = none)
    (hvalid : validateMsg (.chunkRequest H F I) = none)
    (happ : r.conn.loadSnapshotChunk H F I = .ok c) :
    r.Receive validateMsg ⟨ChunkChannel, src, .chunkRequest H F I⟩ =
      [.callLoadSnapshotChunk H F I,
       .send src ChunkChannel (.chunkResponse H F I c c.isNone)] ∧
    (c.isNone = true ↔ c = none) := by
  constructor
  · simp [Reactor.Receive, hrun, hvalid, happ, SnapshotChannel, ChunkChannel]
  · exact Option.isNone_iff_eq_none

/-- C3 witness: the chunk-request theorem applied to the concrete idle
reactor, at the one triple `(1, 2, 3)` for which `app1` holds bytes. -/
theorem chunk_request_served_witness :
    rIdle.Receive validateOk ⟨ChunkChannel, 4, .chunkRequest 1 2 3⟩ =
      [.callLoadSnapshotChunk 1 2 3,
       .send 4 ChunkChannel (.chunkResponse 1 2 3 (some [9, 9])
         (some [9, 9] : Option Bytes).isNone)] ∧
    ((some [9, 9] : Option Bytes).isNone = true ↔ (some [9, 9] : Option Bytes) = none) :=
  chunk_request_served rIdle validateOk 4 1 2 3 (some [9, 9]) rfl rfl rfl (by
    simp [rIdle, app1])

/-- C5: an inbound envelope whose message fails validation makes the reactor
stop the sending peer for the error and nothing else: the effect trace is
exactly the peer stop — no application call, no send, no syncer feed. -/
theorem invalid_message_stops_peer
    (r : Reactor) (validateMsg : Message → Option Nat) (e : Envelope) (err : Nat)
    (hrun : r.running = true)
    (hbad : validateMsg e.Message = some err) :
    r.Receive validateMsg e = [.stopPeerForError e.Src] := by
  simp [Reactor.Receive, hrun, hbad]

/-- C5 witness: the invalid-message theorem applied to the concrete reactor
with the all-rejecting validator. -/
theorem invalid_message_stops_peer_witness :
    rIdle.Receive validateBad ⟨SnapshotChannel, 9, .snapshotsRequest⟩ =
      [.stopPeerForError 9] :=
  invalid_message_stops_peer rIdle validateBad
    ⟨SnapshotChannel, 9, .snapshotsRequest⟩ 7 rfl rfl

/-- C8: a `SnapshotsResponse` or `ChunkResponse` arriving while no sync
session is active is silently dropped: the effect trace is empty — no peer
stop, no application call, no send — and the reactor state is unchanged by
construction (`Receive` writes no field). -/
theorem responses_dropped_when_idle
    (r : Reactor) (validateMsg : Message → Option Nat) (e : Envelope)
    (hidle : r.syncer = none)
    (hvalid : validateMsg e.Message = none)
    (hresp : (∃ H F C Ha M, e.Message = .snapshotsResponse H F C Ha M) ∨
             (∃ H F I c m, e.Message = .chunkResponse H F I c m)) :
    r.Receive validateMsg e = [] := by
  obtain ⟨H, F, C, Ha, M, hm⟩ | ⟨H, F, I, c, m, hm⟩ := hresp <;>
    rw [hm] at hvalid <;>
    cases hr : r.running <;>
    simp [Reactor.Receive, hr, hm, hvalid, hidle]

/-- C8 witness: the drop theorem applied to the concrete idle reactor for one
snapshot response. -/
theorem responses_dropped_when_idle_witness :
    rIdle.Receive validateOk ⟨SnapshotChannel, 2, .snapshotsResponse 1 1 1 [0] []⟩ = [] :=
  responses_dropped_when_idle rIdle validateOk
    ⟨SnapshotChannel, 2, .snapshotsResponse 1 1 1 [0] []⟩ rfl rfl
    (.inl ⟨1, 1, 1, [0], [], rfl⟩)

/-- C10: the handling of inbound `SnapshotsRequest` and `ChunkRequest`
messages never consults the syncer field: `Receive` produces the same effects
whatever that field holds, so serving other nodes is not suspended while this
node's own sync session is active. -/
theorem requests_served_while_syncing
    (r : Reactor) (s : Option Syncer) (validateMsg : Message → Option Nat)
    (e : Envelope)
    (hreq : e.Message = .snapshotsRequest ∨ ∃ H F I, e.Message = .chunkRequest H F I) :
    Reactor.Receive { r with syncer := s } validateMsg e =
      r.Receive validateMsg e := by
  obtain hm | ⟨H, F, I, hm⟩ := hreq <;>
    simp [Reactor.Receive, Reactor.recentSnapshots, hm]

/-- C10 witness: identical request service with and without an active
session, at a concrete chunk request. -/
theorem requests_served_while_syncing_witness :
    Reactor.Receive { rIdle with syncer := some syncer0 } validateOk
        ⟨ChunkChannel, 4, .chunkRequest 1 2 3⟩ =
      rIdle.Receive validateOk ⟨ChunkChannel, 4, .chunkRequest 1 2 3⟩ :=
  requests_served_while_syncing rIdle (some syncer0) validateOk
    ⟨ChunkChannel, 4, .chunkRequest 1 2 3⟩ (.inr ⟨1, 2, 3, rfl⟩)

/-- C4: a `SnapshotsRequest` is answered with one `SnapshotsResponse` per
advertised snapshot, the advertised list being the application's
`ListSnapshots` result sorted by descending `Height` then descending `Format`
and truncated to at most 10 entries (the `recentSnapshots` bound), each
response copying the snapshot's `Height`, `Format`, `Chunks`, `Hash` and
`Metadata` verbatim. -/
theorem snapshots_request_served
    (r : Reactor) (validateMsg : Message → Option Nat) (src : PeerID)
    (snaps : List Snapshot)
    (hrun : r.running = true)
    (hvalid : validateMsg .snapshotsRequest = none)
    (happ : r.conn.listSnapshots = .ok snaps) :
    ∃ sorted : List Snapshot,
      sorted.Perm snaps ∧
      sorted.Pairwise (fun a b =>
        b.Height < a.Height ∨ (a.Height = b.Height ∧ b.Format ≤ a.Format)) ∧
      r.Receive validateMsg ⟨SnapshotChannel, src, .snapshotsRequest⟩ =
        .callListSnapshots ::
          (sorted.take 10).map (fun s =>
            .send src SnapshotChannel
              (.snapshotsResponse s.Height s.Format s.Chunks s.Hash s.Metadata)) := by
  refine ⟨sortSnapshots snaps, sortSnapshots_perm snaps, ?_, ?_⟩
  · exact (sortSnapshots_sorted snaps).imp fun h => (snapshotLE_iff _ _).mp h
  · simp [Reactor.Receive, Reactor.recentSnapshots, hrun, hvalid, happ,
      recentSnapshotsBound, List.map_map, Function.comp]

/-- C4 witness: the snapshots-request theorem applied to the concrete reactor
whose application advertises three snapshots. -/
theorem snapshots_request_served_witness :
    ∃ sorted : List Snapshot,
      sorted.Perm [⟨90, 2, 4, [1], []⟩, ⟨100, 1, 3, [2], [7]⟩, ⟨100, 2, 3, [3], []⟩] ∧
      sorted.Pairwise (fun a b =>
        b.Height < a.Height ∨ (a.Height = b.Height ∧ b.Format ≤ a.Format)) ∧
      rIdle.Receive validateOk ⟨SnapshotChannel, 6, .snapshotsRequest⟩ =
        .callListSnapshots ::
          (sorted.take 10).map (fun s =>
            .send 6 SnapshotChannel
              (.snapshotsResponse s.Height s.Format s.Chunks s.Hash s.Metadata)) :=
  snapshots_request_served rIdle validateOk 6
    [⟨90, 2, 4, [1], []⟩, ⟨100, 1, 3, [2], [7]⟩, ⟨100, 2, 3, [3], []⟩]
    rfl rfl rfl

/-- C7: the reactor exposes exactly the snapshot channel (identifier 0x60,
receive capacity `snapshotMsgSize`) and the chunk channel (identifier 0x61,
receive capacity `chunkMsgSize`); every message that passes validation but
arrives on any other channel identifier produces no effect at all. -/
theorem two_channels_and_unknown_ignored
    (r : Reactor) :
    r.GetChannels =
      [⟨SnapshotChannel, 5, 10, snapshotMsgSize⟩,
       ⟨ChunkChannel, 3, 10, chunkMsgSize⟩] ∧
    SnapshotChannel = 0x60 ∧ ChunkChannel = 0x61 ∧
    ∀ (validateMsg : Message → Option Nat) (e : Envelope),
      validateMsg e.Message = none →
      e.ChannelID ≠ SnapshotChannel → e.ChannelID ≠ ChunkChannel →
      r.Receive validateMsg e = [] := by
  refine ⟨rfl, rfl, rfl, ?_⟩
  intro validateMsg e hvalid h1 h2
  cases hr : r.running <;>
    simp [Reactor.Receive, hr, hvalid, h1, h2]

/-- C7 witness: the channel theorem applied to the concrete reactor, with a
valid message on the foreign channel 0x42 ignored. -/
theorem two_channels_and_unknown_ignored_witness :
    rIdle.GetChannels =
      [⟨SnapshotChannel, 5, 10, snapshotMsgSize⟩,
       ⟨ChunkChannel, 3, 10, chunkMsgSize⟩] ∧
    rIdle.Receive validateOk ⟨0x42, 3, .snapshotsRequest⟩ = [] :=
  ⟨(two_channels_and_unknown_ignored rIdle).1,
   (two_channels_and_unknown_ignored rIdle).2.2.2 validateOk
     ⟨0x42, 3, .snapshotsRequest⟩ rfl (by decide) (by decide)⟩
